import Mathlib

/-!
# Verification of the TCG backend's normalization and fallback pipeline

Shallow embedding of the JavaScript code in `src/server.js` and
`src/image-providers.js`.

Modelling conventions:
* A JavaScript runtime value (as obtained from JSON plus the primitives the
  code manipulates) is a `JSVal`.  Plain objects are association lists of
  string keys; arrays are lists.
* JavaScript numbers are modelled exactly as `JsNum`: `NaN`, signed infinity,
  or an exact rational.  No floating-point rounding or overflow is modelled;
  none of the verified properties depend on double precision.
* `undefined` and `null` are distinct values (`JSVal.undefined` / `JSVal.null`);
  `x == null` (loose equality against null) holds exactly for those two,
  which `jsNullish` captures.
* Property access on a non-object yields `undefined`, as in JavaScript for
  the key names the code uses; access on `null`/`undefined` (which throws in
  JavaScript) only occurs in the handlers, where the throw is modelled
  explicitly by an error branch.
* `ToNumber` (the implicit `Number(x)` conversion) is `jsToNumber`; the
  string-to-number grammar is implemented in `jsParseNum` (whitespace
  trimming, signs, `Infinity`, decimal/scientific literals, hex/octal/binary
  prefixes).  Array conversion goes through the string image of the array,
  which for JSON-like data is: `[] ↦ 0`, a one-element array converts its
  element, and a multi-element array joins with `","` and hence is `NaN`.
-/

/-- A JavaScript number: `NaN`, `±Infinity`, or an exact finite value. -/
inductive JsNum where
  | nan : JsNum
  | inf (neg : Bool) : JsNum
  | fin (q : ℚ) : JsNum
deriving DecidableEq, Repr

/-- `isNaN` on a modelled JavaScript number. -/
def JsNum.isNaN : JsNum → Bool
  | .nan => true
  | _ => false

/-- `Number.isFinite` on a modelled JavaScript number. -/
def JsNum.isFinite : JsNum → Bool
  | .fin _ => true
  | _ => false

/-- A JavaScript runtime value of the shapes the backend manipulates. -/
inductive JSVal where
  | null : JSVal
  | undefined : JSVal
  | bool (b : Bool) : JSVal
  | num (n : JsNum) : JSVal
  | str (s : String) : JSVal
  | arr (elems : List JSVal) : JSVal
  | obj (fields : List (String × JSVal)) : JSVal

/-- `v == null` in JavaScript (loose equality): true exactly for
`null` and `undefined`. -/
def jsNullish : JSVal → Bool
  | .null => true
  | .undefined => true
  | _ => false

/-- JavaScript truthiness. -/
def truthy : JSVal → Bool
  | .null => false
  | .undefined => false
  | .bool b => b
  | .num .nan => false
  | .num (.fin q) => if q = 0 then false else true
  | .num (.inf _) => true
  | .str s => if s = "" then false else true
  | .arr _ => true
  | .obj _ => true

/-- The nullish-coalescing operator `a ?? b`. -/
def jsCoalesce (a b : JSVal) : JSVal :=
  if jsNullish a then b else a

/-- The logical-or operator `a || b` (returns `a` when truthy, else `b`). -/
def jsOr (a b : JSVal) : JSVal :=
  if truthy a then a else b

/-- `a || null`: replace a falsy value by `null`. -/
def jsOrNull (a : JSVal) : JSVal :=
  if truthy a then a else .null

/-- First binding of `key` in an association list, `undefined` if absent. -/
def lookupField : List (String × JSVal) → String → JSVal
  | [], _ => .undefined
  | (k, v) :: rest, key => if k = key then v else lookupField rest key

/-- Property access `v.key` for the named (non-index) keys the code uses:
defined on objects, `undefined` on every other non-nullish value.  (The code
never evaluates `v.key` with `v` nullish except where the handlers model the
resulting throw explicitly.) -/
def getField : JSVal → String → JSVal
  | .obj fs, k => lookupField fs k
  | _, _ => .undefined

/-- Index access `v[0]`: first array element, character `0` of a string, or
the `"0"` property of an object; `undefined` otherwise. -/
def getElem0 : JSVal → JSVal
  | .arr (x :: _) => x
  | .str s =>
      match s.toList with
      | c :: _ => .str (String.mk [c])
      | [] => .undefined
  | .obj fs => lookupField fs "0"
  | _ => .undefined

/-- Optional-chained property access `v?.key`. -/
def chainGet (v : JSVal) (k : String) : JSVal :=
  if jsNullish v then .undefined else getField v k

/-- Optional-chained index access `v?.[0]`. -/
def chainElem0 (v : JSVal) : JSVal :=
  if jsNullish v then .undefined else getElem0 v

section NumberParsing

/-- The whitespace characters trimmed by JavaScript's string-to-number
conversion (the common ones; exotic Unicode spaces are not modelled). -/
def isJsWS (c : Char) : Bool :=
  c = ' ' || c = '\t' || c = '\n' || c = '\r' || c = Char.ofNat 11 || c = Char.ofNat 12

/-- Numeric value of a decimal digit list (digits already validated). -/
def natOfDigits (cs : List Char) : Nat :=
  cs.foldl (fun a c => a * 10 + (c.toNat - 48)) 0

/-- Value of a digit character in the given radix, if valid. -/
def radixDigit (base : Nat) (c : Char) : Option Nat :=
  let d? : Option Nat :=
    if c.isDigit then some (c.toNat - 48)
    else if 'a' ≤ c ∧ c ≤ 'f' then some (c.toNat - 87)
    else if 'A' ≤ c ∧ c ≤ 'F' then some (c.toNat - 55)
    else none
  match d? with
  | some d => if d < base then some d else none
  | none => none

/-- Value of a digit list in the given radix, `none` on any invalid digit. -/
def natOfRadix (base : Nat) (cs : List Char) : Option Nat :=
  cs.foldl
    (fun acc c =>
      match acc, radixDigit base c with
      | some a, some d => some (a * base + d)
      | _, _ => none)
    (some 0)

/-- Split a character list at the first character satisfying `p`; the second
component is `none` when no character matches. -/
def splitFirst : List Char → (Char → Bool) → List Char × Option (List Char)
  | [], _ => ([], none)
  | c :: cs, p =>
      if p c then ([], some cs)
      else
        let r := splitFirst cs p
        (c :: r.1, r.2)

/-- Parse the exponent part of a decimal literal (after `e`/`E`). -/
def parseExp : List Char → Option Int
  | [] => none
  | '+' :: ds =>
      if ds ≠ [] ∧ ds.all Char.isDigit then some (natOfDigits ds : Int) else none
  | '-' :: ds =>
      if ds ≠ [] ∧ ds.all Char.isDigit then some (-(natOfDigits ds : Int)) else none
  | ds =>
      if ds.all Char.isDigit then some (natOfDigits ds : Int) else none

/-- Parse the mantissa (`digits`, `digits.digits`, `.digits`, `digits.`). -/
def parseMantissa (cs : List Char) : Option ℚ :=
  let s := splitFirst cs (· = '.')
  match s.2 with
  | none =>
      if s.1 ≠ [] ∧ s.1.all Char.isDigit then some ((natOfDigits s.1 : ℚ)) else none
  | some fp =>
      if s.1.all Char.isDigit ∧ fp.all Char.isDigit ∧ (s.1 ≠ [] ∨ fp ≠ []) then
        some ((natOfDigits s.1 : ℚ) + (natOfDigits fp : ℚ) / ((10 : ℚ) ^ fp.length))
      else none

/-- Parse an unsigned decimal literal with optional exponent. -/
def parseDecCore (cs : List Char) : Option ℚ :=
  let s := splitFirst cs (fun c => c = 'e' || c = 'E')
  match s.2 with
  | none => parseMantissa s.1
  | some ecs =>
      match parseMantissa s.1, parseExp ecs with
      | some m, some ex => some (m * (10 : ℚ) ^ ex)
      | _, _ => none

/-- Parse the part after an optional sign: `Infinity` or a decimal literal. -/
def parseUnsigned (neg : Bool) (cs : List Char) : JsNum :=
  if cs = "Infinity".toList then .inf neg
  else
    match parseDecCore cs with
    | some q => .fin (if neg then -q else q)
    | none => .nan

/-- `Number(s)` for a string `s`: trim, empty string is `0`, optional sign,
`Infinity`, decimal/scientific literals, and (unsigned) `0x`/`0o`/`0b`
radix literals; anything else is `NaN`. -/
def jsParseNum (s : String) : JsNum :=
  let cs := ((s.toList.dropWhile isJsWS).reverse.dropWhile isJsWS).reverse
  match cs with
  | [] => .fin 0
  | '+' :: rest => parseUnsigned false rest
  | '-' :: rest => parseUnsigned true rest
  | '0' :: x :: rest =>
      if x = 'x' ∨ x = 'X' then
        match natOfRadix 16 rest with
        | some n => if rest = [] then .nan else .fin (n : ℚ)
        | none => .nan
      else if x = 'o' ∨ x = 'O' then
        match natOfRadix 8 rest with
        | some n => if rest = [] then .nan else .fin (n : ℚ)
        | none => .nan
      else if x = 'b' ∨ x = 'B' then
        match natOfRadix 2 rest with
        | some n => if rest = [] then .nan else .fin (n : ℚ)
        | none => .nan
      else parseUnsigned false cs
  | _ => parseUnsigned false cs

end NumberParsing

/-- `Number(v)`: JavaScript's ToNumber conversion on the modelled values.
Plain objects convert through `"[object Object]"`, hence `NaN`.  Arrays
convert through their joined string image: empty is `0`, singletons convert
their element, longer arrays contain a comma and are `NaN`. -/
def jsToNumber : JSVal → JsNum
  | .null => .fin 0
  | .undefined => .nan
  | .bool b => if b then .fin 1 else .fin 0
  | .num n => n
  | .str s => jsParseNum s
  | .obj _ => .nan
  | .arr [] => .fin 0
  | .arr [.arr ys] => jsToNumber (.arr ys)
  | .arr [.null] => .fin 0
  | .arr [.undefined] => .fin 0
  | .arr [.num n] => n
  | .arr [.str s] => jsParseNum s
  | .arr [.bool _] => .nan
  | .arr [.obj _] => .nan
  | .arr (_ :: _ :: _) => .nan

/-- The canonical price shape produced by `normalizePrice`: the `amount` is
always a JavaScript number, the `currency` an arbitrary value (the code
passes the found currency through unchanged). -/
structure NormalizedPrice where
  amount : JsNum
  currency : JSVal

/-- The object branch of `normalizePrice` (reached for any value of
`typeof === 'object'` other than `null`, i.e. objects and arrays):

```js
const amount = price.amount ?? price.value ?? price.price ?? price.lowest ?? price.min ?? null;
const currency = price.currency ?? price.cur ?? null;
if (amount != null && !isNaN(Number(amount))) {
  return { amount: Number(amount), currency: currency || null };
}
if (price.prices) {
  const p = price.prices.lowest ?? price.prices.min ?? price.prices[0];
  if (p != null && !isNaN(Number(p))) {
    return { amount: Number(p), currency: currency || null };
  }
}
return { amount: 0, currency: null };
``` -/
def normalizePriceObject (price : JSVal) : NormalizedPrice :=
  let amount := jsCoalesce (getField price "amount") (jsCoalesce (getField price "value")
    (jsCoalesce (getField price "price") (jsCoalesce (getField price "lowest")
      (jsCoalesce (getField price "min") .null))))
  let currency := jsCoalesce (getField price "currency") (jsCoalesce (getField price "cur") .null)
  if !jsNullish amount && !(jsToNumber amount).isNaN then
    { amount := jsToNumber amount, currency := jsOrNull currency }
  else
    let prices := getField price "prices"
    if truthy prices then
      let p := jsCoalesce (getField prices "lowest")
        (jsCoalesce (getField prices "min") (getElem0 prices))
      if !jsNullish p && !(jsToNumber p).isNaN then
        { amount := jsToNumber p, currency := jsOrNull currency }
      else { amount := .fin 0, currency := .null }
    else { amount := .fin 0, currency := .null }

/-- `normalizePrice` from `src/server.js` lines 24–44.  The branches follow
the source: nullish inputs, then numbers, then strings whose conversion is
not `NaN`, then the object branch (objects and arrays), then the default.
A string converting to `NaN` and a boolean fall past their `typeof` tests
to the final default. -/
def normalizePrice (price : JSVal) : NormalizedPrice :=
  match price with
  | .null => { amount := .fin 0, currency := .null }
  | .undefined => { amount := .fin 0, currency := .null }
  | .num n => { amount := n, currency := .null }
  | .str s =>
      if !(jsParseNum s).isNaN then { amount := jsParseNum s, currency := .null }
      else { amount := .fin 0, currency := .null }
  | .obj fs => normalizePriceObject (.obj fs)
  | .arr xs => normalizePriceObject (.arr xs)
  | .bool _ => { amount := .fin 0, currency := .null }

example : normalizePrice (.obj [("amount", .num (.fin 5)), ("currency", .str "USD")])
    = { amount := .fin 5, currency := .str "USD" } := by rfl

example : normalizePrice (.obj [("prices", .obj [("lowest", .num (.fin (7/2)))])])
    = { amount := .fin (7/2), currency := .null } := by rfl

example : normalizePrice (.str "20") = { amount := .fin 20, currency := .null } := by rfl

example : normalizePrice (.str "Infinity") = { amount := .inf false, currency := .null } := by rfl

example : normalizePrice (.str "abc") = { amount := .fin 0, currency := .null } := by rfl

example : normalizePrice (.str "0x10") = { amount := .fin 16, currency := .null } := by rfl

example : normalizePrice (.arr [.num (.fin 4)]) = { amount := .fin 0, currency := .null } := by rfl

example : normalizePrice (.num .nan) = { amount := .nan, currency := .null } := by rfl

/-! ## CardResponseShaper (`src/server.js` lines 85–102 and 128–144) -/

/-- `card.variants?.[0] || {}`: the chosen variant, an empty object when the
variant sequence is missing, empty, or its first element is falsy. -/
def firstVariant (card : JSVal) : JSVal :=
  jsOr (chainElem0 (getField card "variants")) (.obj [])

/-- `variant.image || card.image || null`: the outward image selection. -/
def selectImage (card variant : JSVal) : JSVal :=
  jsOr (getField variant "image") (jsOr (getField card "image") .null)

/-- `variant.price ?? variant.prices ?? card.price ?? card.prices`: the value
handed to `normalizePrice`. -/
def selectPriceSrc (card variant : JSVal) : JSVal :=
  jsCoalesce (getField variant "price") (jsCoalesce (getField variant "prices")
    (jsCoalesce (getField card "price") (getField card "prices")))

/-- The outward-facing card record built by the search handler's mapper. -/
structure OutwardCard where
  id : JSVal
  name : JSVal
  set_name : JSVal
  set : JSVal
  number : JSVal
  image : JSVal
  price : JsNum
  currency : JSVal
  variant_id : JSVal

/-- The mapper body from the search route (`src/server.js` lines 85–102):
first variant, image preference, price normalization, set-name fallback. -/
def shapeCard (card : JSVal) : OutwardCard :=
  let variant := firstVariant card
  let priceInfo := normalizePrice (selectPriceSrc card variant)
  { id := getField card "id"
    name := getField card "name"
    set_name := jsOr (getField card "set_name") (getField card "set")
    set := getField card "set"
    number := getField card "number"
    image := selectImage card variant
    price := priceInfo.amount
    currency := priceInfo.currency
    variant_id := jsCoalesce (getField variant "id") .null }

/-! ## Request handlers (`src/server.js` lines 47–162)

The single upstream `fetch` a handler performs is modelled by passing its
outcome as an argument: either the promise rejected (`throwErr`, carrying the
error message), or a response arrived with a success flag, a status code, and
a body that either parses as JSON or makes `response.json()` reject. -/

/-- Outcome of one upstream `fetch` call. -/
inductive FetchOutcome where
  | throwErr (msg : String) : FetchOutcome
  | resp (ok : Bool) (status : Nat) (body : Except String JSVal) : FetchOutcome

/-- Truthiness of an environment variable or query parameter
(a missing binding and the empty string are falsy). -/
def jsStrTruthy : Option String → Bool
  | some s => if s = "" then false else true
  | none => false

/-- `response.json().catch(() => ({}))`: the parsed error body, or an empty
object when parsing rejects. -/
def errJson : Except String JSVal → JSVal
  | .ok j => j
  | .error _ => .obj []

/-- `rawCards.map(card => ...)`: succeeds only when the value is an array of
non-nullish elements; anything else makes the mapper body throw
(`card.variants` on a nullish element, or `.map` missing on a non-array). -/
def mapCards : JSVal → Option (List OutwardCard)
  | .arr xs => if xs.all (fun x => !jsNullish x) then some (xs.map shapeCard) else none
  | _ => none

/-- Body of a `/api/cards/search` response: an error object or a data list. -/
inductive SearchBody where
  | err (msg : JSVal) : SearchBody
  | ok (cards : List OutwardCard) : SearchBody

/-- A `/api/cards/search` response. -/
structure SearchResp where
  status : Nat
  body : SearchBody

/-- The `/api/cards/search` handler (`src/server.js` lines 61–109):
key check, parameter check, upstream call, error propagation, shaping.
A rejected fetch, a rejected `json()`, a `null` JSON document (on which
member access throws), or a non-array `data` all land in the route's
`catch`, answering 500 `Internal server error`. -/
def searchHandler (key game q : Option String) (upstream : FetchOutcome) : SearchResp :=
  if !jsStrTruthy key then
    ⟨500, .err (.str "JustTCG API key not configured on server (JUSTTCG_API_KEY)")⟩
  else if !jsStrTruthy game || !jsStrTruthy q then
    ⟨400, .err (.str "Missing game or q")⟩
  else
    match upstream with
    | .throwErr _ => ⟨500, .err (.str "Internal server error")⟩
    | .resp ok status body =>
      if !ok then
        let e := errJson body
        if jsNullish e then ⟨500, .err (.str "Internal server error")⟩
        else ⟨status, .err (jsOr (getField e "error") (.str "JustTCG API error"))⟩
      else
        match body with
        | .error _ => ⟨500, .err (.str "Internal server error")⟩
        | .ok apiData =>
          if jsNullish apiData then ⟨500, .err (.str "Internal server error")⟩
          else
            match mapCards (jsOr (getField apiData "data") (.arr [])) with
            | none => ⟨500, .err (.str "Internal server error")⟩
            | some cards => ⟨200, .ok cards⟩

/-- Body of a `/api/cards/price` response: an error object, or the structured
payload; `raw` is present (`some`) only when the debug flag is on, matching
`JSON.stringify` dropping an `undefined`-valued key. -/
inductive PriceBody where
  | err (msg : JSVal) : PriceBody
  | payload (price : JsNum) (currency : JSVal) (image : JSVal) (variant_id : JSVal)
      (raw : Option (JSVal × JSVal)) : PriceBody

/-- A `/api/cards/price` response. -/
structure PriceResp where
  status : Nat
  body : PriceBody

/-- The `raw` field of a price response body, if any. -/
def rawOf : PriceBody → Option (JSVal × JSVal)
  | .payload _ _ _ _ r => r
  | .err _ => none

/-- A price response body with its `raw` debug field erased, for comparing
responses across debug configurations. -/
def eraseRaw : PriceBody → PriceBody
  | .payload p c i v _ => .payload p c i v none
  | .err m => .err m

/-- The `/api/cards/price` handler (`src/server.js` lines 112–149).
`showRaw` is the `SHOW_RAW` environment variable. -/
def priceHandler (key showRaw id : Option String) (upstream : FetchOutcome) : PriceResp :=
  if !jsStrTruthy key then
    ⟨500, .err (.str "JustTCG API key not configured on server (JUSTTCG_API_KEY)")⟩
  else if !jsStrTruthy id then
    ⟨400, .err (.str "Missing id")⟩
  else
    match upstream with
    | .throwErr _ => ⟨500, .err (.str "Failed to fetch price")⟩
    | .resp ok status body =>
      if !ok then
        let e := errJson body
        if jsNullish e then ⟨500, .err (.str "Failed to fetch price")⟩
        else ⟨status, .err (jsOr (getField e "error") (.str "Card not found"))⟩
      else
        match body with
        | .error _ => ⟨500, .err (.str "Failed to fetch price")⟩
        | .ok card =>
          if jsNullish card then ⟨500, .err (.str "Failed to fetch price")⟩
          else
            let variant := firstVariant card
            let info := normalizePrice (selectPriceSrc card variant)
            ⟨200, .payload info.amount info.currency (selectImage card variant)
              (jsCoalesce (getField variant "id") .null)
              (if showRaw = some "true" then some (card, variant) else none)⟩

/-- A `/api/games` response (its body is passed through as JSON). -/
structure GamesResp where
  status : Nat
  body : JSVal

/-- The `/api/games` handler (`src/server.js` lines 152–162).  Because
`await` binds tighter than `?:`, the source line
`const data = await response.ok ? await response.json() : { error: 'Failed' }`
selects on `response.ok` and always answers with status 200 unless the fetch
or the JSON parse rejects (whose message the catch echoes back). -/
def gamesHandler (key : Option String) (upstream : FetchOutcome) : GamesResp :=
  if !jsStrTruthy key then
    ⟨500, .obj [("error", .str "JustTCG API key not configured on server (JUSTTCG_API_KEY)")]⟩
  else
    match upstream with
    | .throwErr m => ⟨500, .obj [("error", .str m)]⟩
    | .resp ok _ body =>
      if ok then
        match body with
        | .error m => ⟨500, .obj [("error", .str m)]⟩
        | .ok j => ⟨200, j⟩
      else ⟨200, .obj [("error", .str "Failed")]⟩

example : (shapeCard (.obj [("image", .str "card.png"),
    ("variants", .arr [.obj [("image", .str "v.png")]])])).image = .str "v.png" := by rfl

example : (shapeCard (.obj [("image", .str "card.png"),
    ("variants", .arr [.obj []])])).image = .str "card.png" := by rfl


/-! ## ImageResolver (`src/image-providers.js`)

The card passed to the resolver carries the identifying fields of the spec's
ImageQuery (game tag, set code, collector number, name), each a string or
absent.  Outbound requests are modelled structurally (the query-string
assembly and URL escaping carry no logic the properties depend on); the
network is an oracle mapping each request to a `FetchOutcome`. -/

/-- The four kinds of requests the resolver can issue. -/
inductive ImgReq where
  | poketcgSetNum (set number : String) : ImgReq
  | poketcgName (name : String) : ImgReq
  | scryfallNamed (name : String) : ImgReq
  | scryfallSearch (name : Option String) (set number : String) : ImgReq

/-- The fields of the resolver's card argument. -/
structure ImgCard where
  game : Option String
  set : Option String
  number : Option String
  name : Option String

/-- Outcome of one attempt inside a provider: either the whole provider call
returns a value (`done`, with `.null` for a caught throw), or control falls
through to the provider's next attempt. -/
inductive Step where
  | done (v : JSVal) : Step
  | next : Step

/-- Run the provider attempt `s`; when it falls through, continue with `k`
(the rest of the provider function). -/
def stepOr (s : Step) (k : JSVal) : JSVal :=
  match s with
  | .done v => v
  | .next => k

/-- `first?.images?.large || first?.images?.small` over the parsed PokéTCG
payload `j`, with `first = j.data?.[0]`. -/
def pokeImgOf (j : JSVal) : JSVal :=
  let first := chainElem0 (getField j "data")
  jsOr (chainGet (chainGet first "images") "large")
    (chainGet (chainGet first "images") "small")

/-- One PokéTCG attempt: a rejected fetch or a rejected `json()` is caught by
the function-wide `try`, returning `null`; a non-success status or a falsy
image falls through to the next attempt.  A `null` JSON document makes
`j.data` throw, likewise caught. -/
def pokeTry (out : FetchOutcome) : Step :=
  match out with
  | .throwErr _ => .done .null
  | .resp ok _ body =>
    if ok then
      match body with
      | .error _ => .done .null
      | .ok j =>
        if jsNullish j then .done .null
        else
          let img := pokeImgOf j
          if truthy img then .done img else .next
    else .next

/-- `fetchPokemonImage` (`src/image-providers.js` lines 9–43): set+number
query when both are non-empty, then a name query, else `null`. -/
def fetchPokemonImage (fetch : ImgReq → FetchOutcome) (card : ImgCard) : JSVal :=
  let setId := card.set.getD ""
  let number := card.number.getD ""
  let s1 :=
    if setId ≠ "" ∧ number ≠ "" then pokeTry (fetch (.poketcgSetNum setId number))
    else .next
  let s2 :=
    if jsStrTruthy card.name then pokeTry (fetch (.poketcgName (card.name.getD "")))
    else .next
  stepOr s1 (stepOr s2 .null)

/-- The image extracted by the Scryfall exact-name attempt from a non-null
JSON document `j`:
`j.image_uris?.normal`, then `j.image_uris?.large`, then
`j.card_faces?.[0]?.image_uris?.normal`. -/
def scryNamedImg (j : JSVal) : Step :=
  let n := chainGet (getField j "image_uris") "normal"
  if truthy n then .done n
  else
    let l := chainGet (getField j "image_uris") "large"
    if truthy l then .done l
    else
      let cf := chainGet (chainGet (chainElem0 (getField j "card_faces")) "image_uris") "normal"
      if truthy cf then .done cf else .next

/-- One Scryfall exact-name attempt. -/
def scryTryNamed (out : FetchOutcome) : Step :=
  match out with
  | .throwErr _ => .done .null
  | .resp ok _ body =>
    if ok then
      match body with
      | .error _ => .done .null
      | .ok j => if jsNullish j then .done .null else scryNamedImg j
    else .next

/-- One Scryfall search attempt: `first = j.data?.[0]`, then
`first.image_uris?.normal`, then `first.card_faces?.[0]?.image_uris?.normal`. -/
def scryTrySearch (out : FetchOutcome) : Step :=
  match out with
  | .throwErr _ => .done .null
  | .resp ok _ body =>
    if ok then
      match body with
      | .error _ => .done .null
      | .ok j =>
        if jsNullish j then .done .null
        else
          let first := chainElem0 (getField j "data")
          if truthy first then
            let n := chainGet (getField first "image_uris") "normal"
            if truthy n then .done n
            else
              let cf := chainGet (chainGet (chainElem0 (getField first "card_faces"))
                "image_uris") "normal"
              if truthy cf then .done cf else .next
          else .next
    else .next

/-- `fetchScryfallImage` (`src/image-providers.js` lines 45–77): exact-name
query when the name is truthy, then a set+number search, else `null`. -/
def fetchScryfallImage (fetch : ImgReq → FetchOutcome) (card : ImgCard) : JSVal :=
  let s1 :=
    if jsStrTruthy card.name then scryTryNamed (fetch (.scryfallNamed (card.name.getD "")))
    else .next
  let s2 :=
    if jsStrTruthy card.set ∧ jsStrTruthy card.number then
      scryTrySearch (fetch (.scryfallSearch card.name (card.set.getD "") (card.number.getD "")))
    else .next
  stepOr s1 (stepOr s2 .null)

/-- Lower-casing via the character list (`String.prototype.toLowerCase`
for the ASCII game tags involved). -/
def strToLower (s : String) : String := String.mk (s.toList.map Char.toLower)

/-- Substring test, JavaScript's `String.prototype.includes`. -/
def strContains (hay needle : String) : Bool :=
  (List.range (hay.toList.length + 1)).any
    (fun i => needle.toList.isPrefixOf (hay.toList.drop i))

/-- `getImageForCard` (`src/image-providers.js` lines 79–100): hinted
provider first, then both providers generically, `null` when everything
fails. -/
def getImageForCard (fetch : ImgReq → FetchOutcome) (card : ImgCard) : JSVal :=
  let game := strToLower (card.game.getD "")
  let pokeHint := strContains game "pokemon"
    || (jsStrTruthy card.set && strContains (card.set.getD "") "pokemon")
  let mtgHint := strContains game "magic" || strContains game "mtg"
    || (jsStrTruthy card.set && strContains (card.set.getD "") "mtg")
  let r1 := if pokeHint then fetchPokemonImage fetch card else .null
  if truthy r1 then r1
  else
    let r2 := if mtgHint then fetchScryfallImage fetch card else .null
    if truthy r2 then r2
    else
      let r3 := fetchPokemonImage fetch card
      if truthy r3 then r3
      else
        let r4 := fetchScryfallImage fetch card
        if truthy r4 then r4 else .null


/-! ## Spec-side descriptions used for refinement statements -/

/-- The first of `keys` whose value on `v` is non-nullish, `null` when none
is (the spec's "look for an amount under the alternative keys, in that
priority order"). -/
def firstNonNullishKey (v : JSVal) : List String → JSVal
  | [] => .null
  | k :: rest =>
      if jsNullish (getField v k) then firstNonNullishKey v rest else getField v k

/-- The first non-nullish value of the list, the last entry taken as a final
fallback (the spec's "lowest, else min, else first positional element"). -/
def pickFirstPresent : List JSVal → JSVal
  | [] => .undefined
  | [x] => x
  | x :: rest => if jsNullish x then pickFirstPresent rest else x

/-- The object branch of the price normalizer as the specification describes
it (amended reading): amount from the first non-nullish of
`amount`/`value`/`price`/`lowest`/`min`, currency from the first non-nullish
of `currency`/`cur`; a direct amount is used when its numeric conversion is
not `NaN`; otherwise a truthy nested `prices` collection supplies
`lowest`, else `min`, else its first positional element, under the same
usability test; a falsy currency is replaced by `null`; otherwise the
default. -/
def describedObjectPrice (v : JSVal) : NormalizedPrice :=
  let a := firstNonNullishKey v ["amount", "value", "price", "lowest", "min"]
  let c := firstNonNullishKey v ["currency", "cur"]
  if !jsNullish a && !(jsToNumber a).isNaN then
    { amount := jsToNumber a, currency := jsOrNull c }
  else
    let ps := getField v "prices"
    if truthy ps then
      let p := pickFirstPresent [getField ps "lowest", getField ps "min", getElem0 ps]
      if !jsNullish p && !(jsToNumber p).isNaN then
        { amount := jsToNumber p, currency := jsOrNull c }
      else { amount := .fin 0, currency := .null }
    else { amount := .fin 0, currency := .null }

lemma normalizePriceObject_eq_described (v : JSVal) :
    normalizePriceObject v = describedObjectPrice v := by
  unfold normalizePriceObject describedObjectPrice
  simp only [firstNonNullishKey, pickFirstPresent, jsCoalesce]

/-- The variants field is a sequence (array) or missing — the domain the
specification's RawCard data model describes. -/
def variantsIsSeqOrMissing (card : JSVal) : Bool :=
  match getField card "variants" with
  | .arr _ => true
  | .null => true
  | .undefined => true
  | _ => false

/-- The spec-side chosen variant: the first element of the variant sequence,
an empty record when the sequence is empty or missing. -/
def specVariant (card : JSVal) : JSVal :=
  match getField card "variants" with
  | .arr (v :: _) => v
  | _ => .obj []

/-- The spec-side price input: the variant's `price` if present (non-nullish),
else the variant's `prices`, else the card's `price`, else the card's
`prices`. -/
def specPriceSrc (card : JSVal) : JSVal :=
  jsCoalesce (getField (specVariant card) "price")
    (jsCoalesce (getField (specVariant card) "prices")
      (jsCoalesce (getField card "price") (getField card "prices")))

lemma getField_of_falsy (v : JSVal) (k : String) (h : truthy v = false) :
    getField v k = .undefined := by
  cases v <;> first
    | rfl
    | exact absurd h (by simp [truthy])

lemma firstVariant_getField (card : JSVal) (k : String)
    (h : variantsIsSeqOrMissing card = true) :
    getField (firstVariant card) k = getField (specVariant card) k := by
  unfold firstVariant specVariant
  unfold variantsIsSeqOrMissing at h
  cases hv : getField card "variants" with
  | null => simp [hv, chainElem0, jsNullish, jsOr, truthy]
  | undefined => simp [hv, chainElem0, jsNullish, jsOr, truthy]
  | bool b => rw [hv] at h; exact absurd h (by simp)
  | num n => rw [hv] at h; exact absurd h (by simp)
  | str s => rw [hv] at h; exact absurd h (by simp)
  | obj fs => rw [hv] at h; exact absurd h (by simp)
  | arr elems =>
      cases elems with
      | nil => simp [hv, chainElem0, jsNullish, getElem0, jsOr, truthy]
      | cons v vs =>
          cases htv : truthy v with
          | true => simp [hv, chainElem0, jsNullish, getElem0, jsOr, htv]
          | false =>
              simp [hv, chainElem0, jsNullish, getElem0, jsOr, htv,
                getField_of_falsy v k htv]
              rfl

/-! ## Claim theorems -/

/-- C1, counterexample: the claim says the `amount` of a `normalizePrice`
result is always finite, in particular for the input `NaN`; but the code's
number branch returns the input unchanged, so `normalizePrice(NaN)` has
amount `NaN`, which is not finite. -/
theorem normalizePrice_nan_amount_not_finite :
    (normalizePrice (JSVal.num JsNum.nan)).amount = JsNum.nan
    ∧ (normalizePrice (JSVal.num JsNum.nan)).amount.isFinite = false := by
  exact ⟨rfl, rfl⟩

/-- C1, amended: `normalizePrice` is total and its `amount` is always a
JavaScript number (in the model, by the very type of the result), and a
finite numeric input is returned unchanged; but the amount is not always
finite: the inputs `NaN`, `Infinity`, and the string `"Infinity"` (whose
conversion is non-`NaN` but infinite) all produce a non-finite amount. -/
theorem normalizePrice_amount_always_number :
    (∀ q : ℚ, (normalizePrice (JSVal.num (JsNum.fin q))).amount = JsNum.fin q)
    ∧ (normalizePrice (JSVal.num JsNum.nan)).amount = JsNum.nan
    ∧ (normalizePrice (JSVal.num (JsNum.inf false))).amount = JsNum.inf false
    ∧ (normalizePrice (JSVal.str "Infinity")).amount = JsNum.inf false := by
  exact ⟨fun q => rfl, rfl, rfl, rfl⟩

/-- The C2 counterexample input: a direct `amount` whose conversion is
infinite (hence non-`NaN`) next to a finite nested `prices.lowest`. -/
def c2cex : JSVal :=
  .obj [("amount", .str "Infinity"), ("prices", .obj [("lowest", .num (.fin 3))])]

/-- C2, counterexample: the claim says a direct amount field is used only
when it "resolves to a finite number", so on `c2cex` the result would be the
nested `prices.lowest`, i.e. amount `3`; the code only tests `!isNaN`, keeps
the infinite direct amount, and never reaches the nested collection. -/
theorem normalizePrice_object_claim_cex :
    (normalizePrice c2cex).amount = JsNum.inf false
    ∧ (normalizePrice c2cex).amount ≠ JsNum.fin 3 := by
  exact ⟨rfl, by decide⟩

/-- C2, amended: for every object input, the amount is looked up under
`amount`/`value`/`price`/`lowest`/`min` in priority order, taking the first
key with a non-nullish value, and the currency under `currency` then `cur`;
a direct amount is used whenever its numeric conversion is non-`NaN`
(infinite values included, not only finite ones); only otherwise is the
nested `prices` collection consulted (`lowest`, else `min`, else the first
positional element, under the same non-`NaN` test); a falsy currency is
replaced by `null`.  The two cited examples hold as stated. -/
theorem normalizePrice_object_described :
    (∀ fs : List (String × JSVal),
      normalizePrice (JSVal.obj fs) = describedObjectPrice (JSVal.obj fs))
    ∧ normalizePrice (.obj [("amount", .num (.fin 5)), ("currency", .str "USD")])
        = { amount := .fin 5, currency := .str "USD" }
    ∧ normalizePrice (.obj [("prices", .obj [("lowest", .num (.fin (7/2)))])])
        = { amount := .fin (7/2), currency := .null } := by
  refine ⟨fun fs => ?_, rfl, rfl⟩
  exact normalizePriceObject_eq_described (JSVal.obj fs)

/-- C3, counterexample: the claim says any string not parsing to a finite
number falls through to the default `{amount: 0, currency: null}`; but
`"Infinity"` parses to a non-`NaN` (infinite) value, so the code returns
amount `Infinity`, not `0`. -/
theorem normalizePrice_infinity_string_cex :
    (normalizePrice (JSVal.str "Infinity")).amount = JsNum.inf false
    ∧ (normalizePrice (JSVal.str "Infinity")).amount ≠ JsNum.fin 0 := by
  exact ⟨rfl, by decide⟩

/-- C3, amended: `null`, `undefined` and `{}` map to
`{amount: 0, currency: null}`; every finite number `x ≥ 0` maps to
`{amount: x, currency: null}`; a string maps to its parsed value whenever
the parse is non-`NaN` (so `"Infinity"` yields an infinite amount, not the
default), and only a string parsing to `NaN` falls through to the
default. -/
theorem normalizePrice_primitive_cases :
    normalizePrice .null = { amount := .fin 0, currency := .null }
    ∧ normalizePrice .undefined = { amount := .fin 0, currency := .null }
    ∧ normalizePrice (.obj []) = { amount := .fin 0, currency := .null }
    ∧ (∀ q : ℚ, 0 ≤ q →
        normalizePrice (.num (.fin q)) = { amount := .fin q, currency := .null })
    ∧ (∀ s : String, (jsParseNum s).isNaN = false →
        normalizePrice (.str s) = { amount := jsParseNum s, currency := .null })
    ∧ (∀ s : String, (jsParseNum s).isNaN = true →
        normalizePrice (.str s) = { amount := .fin 0, currency := .null }) := by
  refine ⟨rfl, rfl, rfl, fun q _ => rfl, fun s h => ?_, fun s h => ?_⟩
  · simp [normalizePrice, h]
  · simp [normalizePrice, h]

/-- Witness for C3's amended theorem at concrete inputs. -/
theorem normalizePrice_primitive_cases_witness :
    normalizePrice (.num (.fin 2)) = { amount := .fin 2, currency := .null }
    ∧ normalizePrice (.str "abc") = { amount := .fin 0, currency := .null } := by
  exact ⟨normalizePrice_primitive_cases.2.2.2.1 2 (by norm_num),
    normalizePrice_primitive_cases.2.2.2.2.2 "abc" rfl⟩

/-- A card with both a top-level image and a variant image. -/
def c4bothImages : JSVal :=
  .obj [("image", .str "card.png"), ("variants", .arr [.obj [("image", .str "v.png")]])]

/-- A card with a top-level image whose only variant has no image. -/
def c4cardImageOnly : JSVal :=
  .obj [("image", .str "card.png"), ("variants", .arr [.obj []])]

/-- C4: the outward image is the chosen (first) variant's image when that
variant has a (truthy) one; otherwise the card's own top-level image when
that is truthy; otherwise `null`.  In particular the two cited examples. -/
theorem shapeCard_image_preference :
    (∀ card : JSVal,
      (truthy (getField (firstVariant card) "image") = true →
        (shapeCard card).image = getField (firstVariant card) "image")
      ∧ (truthy (getField (firstVariant card) "image") = false →
          truthy (getField card "image") = true →
          (shapeCard card).image = getField card "image")
      ∧ (truthy (getField (firstVariant card) "image") = false →
          truthy (getField card "image") = false →
          (shapeCard card).image = .null))
    ∧ (shapeCard c4bothImages).image = .str "v.png"
    ∧ (shapeCard c4cardImageOnly).image = .str "card.png" := by
  refine ⟨fun card => ⟨fun h => ?_, fun h h2 => ?_, fun h h2 => ?_⟩, rfl, rfl⟩
  · simp [shapeCard, selectImage, jsOr, h]
  · simp [shapeCard, selectImage, jsOr, h, h2]
  · simp [shapeCard, selectImage, jsOr, h, h2]

/-- Witness for C4's theorem: on the two-image card the variant image wins. -/
theorem shapeCard_image_preference_witness :
    (shapeCard c4bothImages).image = getField (firstVariant c4bothImages) "image" := by
  exact (shapeCard_image_preference.1 c4bothImages).1 rfl

/-- A card whose first variant carries an image equal to the empty string. -/
def c9emptyVariantImage : JSVal :=
  .obj [("image", .str "card.png"), ("variants", .arr [.obj [("image", .str "")]])]

/-- As `c9emptyVariantImage` but with no top-level image either. -/
def c9emptyBoth : JSVal :=
  .obj [("variants", .arr [.obj [("image", .str "")]])]

/-- C9: a variant image that is present but falsy (for instance the empty
string) is treated like an absent one — the outward image falls back to the
card's top-level image, and to `null` when that is falsy too. -/
theorem shapeCard_falsy_variant_image :
    (∀ card : JSVal, truthy (getField (firstVariant card) "image") = false →
      (shapeCard card).image
        = (if truthy (getField card "image") then getField card "image" else JSVal.null))
    ∧ (shapeCard c9emptyVariantImage).image = .str "card.png"
    ∧ (shapeCard c9emptyBoth).image = .null := by
  refine ⟨fun card h => ?_, rfl, rfl⟩
  simp [shapeCard, selectImage, jsOr, jsOrNull, h]

/-- Witness for C9's theorem at the empty-string variant image. -/
theorem shapeCard_falsy_variant_image_witness :
    (shapeCard c9emptyVariantImage).image
      = (if truthy (getField c9emptyVariantImage "image")
          then getField c9emptyVariantImage "image" else JSVal.null) := by
  exact shapeCard_falsy_variant_image.1 c9emptyVariantImage rfl

/-- C5: on every raw card whose variant field is a sequence or missing (the
RawCard data model), the shaper's price and currency are exactly
`normalizePrice` applied to: the chosen (first) variant's `price` if
present, else the variant's nested `prices`, else the card's own `price`,
else the card's own `prices` — with the first variant of an empty or missing
sequence treated as a record with no fields. -/
theorem shapeCard_price_pipeline (card : JSVal)
    (h : variantsIsSeqOrMissing card = true) :
    (shapeCard card).price = (normalizePrice (specPriceSrc card)).amount
    ∧ (shapeCard card).currency = (normalizePrice (specPriceSrc card)).currency := by
  have e : selectPriceSrc card (firstVariant card) = specPriceSrc card := by
    unfold selectPriceSrc specPriceSrc
    rw [firstVariant_getField card "price" h, firstVariant_getField card "prices" h]
  constructor
  · simp only [shapeCard, e]
  · simp only [shapeCard, e]

/-- A concrete card exercising the C5 pipeline: the variant has no price
fields, so the card's own nested `prices` supplies the amount. -/
def c5card : JSVal :=
  .obj [("prices", .obj [("min", .num (.fin 9))]),
        ("variants", .arr [.obj [("id", .str "v1")]])]

/-- Witness for C5's theorem at a concrete card. -/
theorem shapeCard_price_pipeline_witness :
    (shapeCard c5card).price = (normalizePrice (specPriceSrc c5card)).amount
    ∧ (shapeCard c5card).currency = (normalizePrice (specPriceSrc c5card)).currency := by
  exact shapeCard_price_pipeline c5card rfl

/-! ## C6: failure resilience of the image resolver -/

/-- A provider call that failed: the fetch rejected, or the response has a
non-success status. -/
def badOutcome : FetchOutcome → Bool
  | .throwErr _ => true
  | .resp ok _ _ => !ok

lemma pokeTry_bad {out : FetchOutcome} (h : badOutcome out = true) :
    pokeTry out = .done .null ∨ pokeTry out = .next := by
  cases out with
  | throwErr m => exact Or.inl rfl
  | resp ok st body =>
      simp only [badOutcome, Bool.not_eq_true'] at h
      subst h
      exact Or.inr rfl

lemma scryTryNamed_bad {out : FetchOutcome} (h : badOutcome out = true) :
    scryTryNamed out = .done .null ∨ scryTryNamed out = .next := by
  cases out with
  | throwErr m => exact Or.inl rfl
  | resp ok st body =>
      simp only [badOutcome, Bool.not_eq_true'] at h
      subst h
      exact Or.inr rfl

lemma scryTrySearch_bad {out : FetchOutcome} (h : badOutcome out = true) :
    scryTrySearch out = .done .null ∨ scryTrySearch out = .next := by
  cases out with
  | throwErr m => exact Or.inl rfl
  | resp ok st body =>
      simp only [badOutcome, Bool.not_eq_true'] at h
      subst h
      exact Or.inr rfl

lemma stepOr_null {s : Step} (h : s = .done .null ∨ s = .next) {k : JSVal}
    (hk : k = .null) : stepOr s k = .null := by
  rcases h with h | h <;> simp [stepOr, h, hk]

lemma guarded_bad {cond : Prop} [Decidable cond] {s : Step}
    (hs : s = .done .null ∨ s = .next) :
    (if cond then s else Step.next) = .done .null
    ∨ (if cond then s else Step.next) = .next := by
  by_cases hc : cond
  · simpa [hc] using hs
  · simp [hc]

lemma fetchPokemonImage_bad (f : ImgReq → FetchOutcome) (c : ImgCard)
    (h : ∀ r, badOutcome (f r) = true) : fetchPokemonImage f c = .null := by
  unfold fetchPokemonImage
  exact stepOr_null (guarded_bad (pokeTry_bad (h _)))
    (stepOr_null (guarded_bad (pokeTry_bad (h _))) rfl)

lemma fetchScryfallImage_bad (f : ImgReq → FetchOutcome) (c : ImgCard)
    (h : ∀ r, badOutcome (f r) = true) : fetchScryfallImage f c = .null := by
  unfold fetchScryfallImage
  exact stepOr_null (guarded_bad (scryTryNamed_bad (h _)))
    (stepOr_null (guarded_bad (scryTrySearch_bad (h _))) rfl)

/-- A provider attempt is well-shaped: whenever it returns a value outright,
that value is `null` (a caught failure) or truthy (a usable image). -/
def GoodStep (s : Step) : Prop :=
  ∀ v, s = .done v → (v = JSVal.null ∨ truthy v = true)

lemma goodStep_next : GoodStep .next := by
  intro v h
  cases h

lemma goodStep_guard {cond : Prop} [Decidable cond] {s : Step} (hs : GoodStep s) :
    GoodStep (if cond then s else Step.next) := by
  by_cases hc : cond
  · simpa [hc] using hs
  · simpa [hc] using goodStep_next

lemma goodStep_pokeTry (out : FetchOutcome) : GoodStep (pokeTry out) := by
  intro v h
  cases out with
  | throwErr m =>
      simp only [pokeTry, Step.done.injEq] at h
      exact Or.inl h.symm
  | resp ok st body =>
      cases ok with
      | false => simp [pokeTry] at h
      | true =>
          cases body with
          | error m =>
              simp only [pokeTry, if_true, Step.done.injEq] at h
              exact Or.inl h.symm
          | ok j =>
              by_cases hj : jsNullish j = true
              · simp only [pokeTry, if_true, hj, Step.done.injEq] at h
                exact Or.inl h.symm
              · by_cases hi : truthy (pokeImgOf j) = true
                · simp only [pokeTry, if_true, hj, hi, Step.done.injEq,
                    Bool.false_eq_true, if_false] at h
                  exact Or.inr (h ▸ hi)
                · simp [pokeTry, hj, hi] at h

lemma goodStep_scryNamedImg (j : JSVal) : GoodStep (scryNamedImg j) := by
  intro v h
  unfold scryNamedImg at h
  by_cases h1 : truthy (chainGet (getField j "image_uris") "normal") = true
  · simp only [h1, if_true, Step.done.injEq] at h
    exact Or.inr (h ▸ h1)
  · by_cases h2 : truthy (chainGet (getField j "image_uris") "large") = true
    · simp only [h1, h2, Bool.false_eq_true, if_false, if_true, Step.done.injEq] at h
      exact Or.inr (h ▸ h2)
    · by_cases h3 : truthy (chainGet (chainGet (chainElem0 (getField j "card_faces"))
        "image_uris") "normal") = true
      · simp only [h1, h2, h3, Bool.false_eq_true, if_false, if_true, Step.done.injEq] at h
        exact Or.inr (h ▸ h3)
      · simp [h1, h2, h3] at h

lemma goodStep_scryTryNamed (out : FetchOutcome) : GoodStep (scryTryNamed out) := by
  intro v h
  cases out with
  | throwErr m =>
      simp only [scryTryNamed, Step.done.injEq] at h
      exact Or.inl h.symm
  | resp ok st body =>
      cases ok with
      | false => simp [scryTryNamed] at h
      | true =>
          cases body with
          | error m =>
              simp only [scryTryNamed, if_true, Step.done.injEq] at h
              exact Or.inl h.symm
          | ok j =>
              by_cases hj : jsNullish j = true
              · simp only [scryTryNamed, if_true, hj, Step.done.injEq] at h
                exact Or.inl h.symm
              · simp only [scryTryNamed, if_true, hj, Bool.false_eq_true, if_false] at h
                exact goodStep_scryNamedImg j v h

lemma goodStep_scryTrySearch (out : FetchOutcome) : GoodStep (scryTrySearch out) := by
  intro v h
  cases out with
  | throwErr m =>
      simp only [scryTrySearch, Step.done.injEq] at h
      exact Or.inl h.symm
  | resp ok st body =>
      cases ok with
      | false => simp [scryTrySearch] at h
      | true =>
          cases body with
          | error m =>
              simp only [scryTrySearch, if_true, Step.done.injEq] at h
              exact Or.inl h.symm
          | ok j =>
              by_cases hj : jsNullish j = true
              · simp only [scryTrySearch, if_true, hj, Step.done.injEq] at h
                exact Or.inl h.symm
              · by_cases hf : truthy (chainElem0 (getField j "data")) = true
                · by_cases h1 : truthy (chainGet
                    (getField (chainElem0 (getField j "data")) "image_uris") "normal") = true
                  · simp only [scryTrySearch, if_true, hj, hf, h1, Bool.false_eq_true,
                      if_false, Step.done.injEq] at h
                    exact Or.inr (h ▸ h1)
                  · by_cases h2 : truthy (chainGet (chainGet (chainElem0 (getField
                      (chainElem0 (getField j "data")) "card_faces")) "image_uris")
                      "normal") = true
                    · simp only [scryTrySearch, if_true, hj, hf, h1, h2, Bool.false_eq_true,
                        if_false, Step.done.injEq] at h
                      exact Or.inr (h ▸ h2)
                    · simp [scryTrySearch, hj, hf, h1, h2] at h
                · simp [scryTrySearch, hj, hf] at h

lemma truthy_null : truthy JSVal.null = false := rfl

lemma stepOr_shape {s : Step} {k : JSVal} (hs : GoodStep s)
    (hk : k = JSVal.null ∨ truthy k = true) :
    stepOr s k = JSVal.null ∨ truthy (stepOr s k) = true := by
  cases s with
  | done v =>
      rcases hs v rfl with hv | hv
      · exact Or.inl (by simp [stepOr, hv])
      · exact Or.inr (by simpa [stepOr] using hv)
  | next => simpa [stepOr] using hk

lemma fetchPokemonImage_shape (f : ImgReq → FetchOutcome) (c : ImgCard) :
    fetchPokemonImage f c = JSVal.null ∨ truthy (fetchPokemonImage f c) = true := by
  unfold fetchPokemonImage
  exact stepOr_shape (goodStep_guard (goodStep_pokeTry _))
    (stepOr_shape (goodStep_guard (goodStep_pokeTry _)) (Or.inl rfl))

lemma fetchScryfallImage_shape (f : ImgReq → FetchOutcome) (c : ImgCard) :
    fetchScryfallImage f c = JSVal.null ∨ truthy (fetchScryfallImage f c) = true := by
  unfold fetchScryfallImage
  exact stepOr_shape (goodStep_guard (goodStep_scryTryNamed _))
    (stepOr_shape (goodStep_guard (goodStep_scryTrySearch _)) (Or.inl rfl))

/-- C6: the image resolver never raises past its boundary.  First: when every
provider call fails (rejected fetch) or returns a non-success status, the
resolver returns `null` rather than propagating an error.  Second: a
provider whose attempts all yielded nothing does not stop the chain — if the
PokéTCG provider produced `null`, the overall result is exactly what the
Scryfall provider produces. -/
theorem getImageForCard_error_resilience :
    (∀ (f : ImgReq → FetchOutcome) (c : ImgCard),
        (∀ r, badOutcome (f r) = true) → getImageForCard f c = JSVal.null)
    ∧ (∀ (f : ImgReq → FetchOutcome) (c : ImgCard),
        fetchPokemonImage f c = JSVal.null →
        getImageForCard f c = fetchScryfallImage f c) := by
  constructor
  · intro f c h
    have hp := fetchPokemonImage_bad f c h
    have hs := fetchScryfallImage_bad f c h
    simp [getImageForCard, hp, hs, truthy]
  · intro f c hp
    rcases fetchScryfallImage_shape f c with hs | hs
    · simp [getImageForCard, hp, hs, truthy]
    · simp only [getImageForCard, hp]
      by_cases hm : (strContains (strToLower (c.game.getD "")) "magic"
          || strContains (strToLower (c.game.getD "")) "mtg"
          || (jsStrTruthy c.set && strContains (c.set.getD "") "mtg")) = true
      · simp [hm, hs, truthy_null]
      · simp [hm, hs, truthy_null]

/-- Witness for C6: a network where every request rejects resolves to
`null`. -/
theorem getImageForCard_error_resilience_witness :
    getImageForCard (fun _ => FetchOutcome.throwErr "network down")
      ⟨some "pokemon", some "base1", some "4", some "Pikachu"⟩ = JSVal.null := by
  exact getImageForCard_error_resilience.1 _ _ (fun _ => rfl)

/-- C7, counterexample: the claim extends upstream-status propagation to
`/api/games`, but because `await` binds tighter than `?:` the games handler
never inspects the body on failure and always answers 200; on a 404 upstream
carrying an error message, the route replies `200 {error: "Failed"}` instead
of propagating `404` with that message. -/
theorem gamesHandler_no_status_propagation :
    gamesHandler (some "key")
        (.resp false 404 (.ok (.obj [("error", .str "upstream broke")])))
      = ⟨200, .obj [("error", .str "Failed")]⟩
    ∧ (200 : Nat) ≠ 404 := by
  exact ⟨rfl, by decide⟩

/-- C7, amended: for `/api/cards/search` and `/api/cards/price`, an upstream
non-success response is answered with the upstream status code and the
upstream error message when the parsed error body carries one, else the
route's generic fallback (`JustTCG API error` / `Card not found`) — provided
the error body is not JSON `null`, on which the member access throws and the
route answers 500.  `/api/games` does not propagate: on upstream non-success
it answers 200 with the fixed body `{error: "Failed"}`. -/
theorem upstream_error_propagation :
    (∀ (k g q : String) (st : Nat) (b : Except String JSVal),
        jsStrTruthy (some k) = true → jsStrTruthy (some g) = true →
        jsStrTruthy (some q) = true → jsNullish (errJson b) = false →
        searchHandler (some k) (some g) (some q) (.resp false st b)
          = ⟨st, .err (jsOr (getField (errJson b) "error") (.str "JustTCG API error"))⟩)
    ∧ (∀ (k i : String) (sr : Option String) (st : Nat) (b : Except String JSVal),
        jsStrTruthy (some k) = true → jsStrTruthy (some i) = true →
        jsNullish (errJson b) = false →
        priceHandler (some k) sr (some i) (.resp false st b)
          = ⟨st, .err (jsOr (getField (errJson b) "error") (.str "Card not found"))⟩)
    ∧ (∀ (k : String) (st : Nat) (b : Except String JSVal),
        jsStrTruthy (some k) = true →
        gamesHandler (some k) (.resp false st b) = ⟨200, .obj [("error", .str "Failed")]⟩) := by
  refine ⟨fun k g q st b hk hg hq hb => ?_, fun k i sr st b hk hi hb => ?_,
    fun k st b hk => ?_⟩
  · simp [searchHandler, hk, hg, hq, hb]
  · simp [priceHandler, hk, hi, hb]
  · simp [gamesHandler, hk]

/-- Witness for C7's amended theorem at concrete requests. -/
theorem upstream_error_propagation_witness :
    searchHandler (some "k") (some "pokemon") (some "pikachu")
        (.resp false 404 (.ok (.obj [("error", .str "nope")])))
      = ⟨404, .err (jsOr (getField (errJson (.ok (.obj [("error", .str "nope")]))) "error")
          (.str "JustTCG API error"))⟩ := by
  exact upstream_error_propagation.1 "k" "pokemon" "pikachu" 404 _ rfl rfl rfl rfl

/-- C8: with the credential configured, `/api/cards/search` without a usable
`game` or `q` answers 400 with an error field, and `/api/cards/price`
without a usable `id` answers 400 with an error field; with no usable
credential, both routes answer 500 with the configuration-specific
message. -/
theorem missing_params_and_key :
    (∀ (k : String) (game q : Option String) (u : FetchOutcome),
        jsStrTruthy (some k) = true →
        (jsStrTruthy game = false ∨ jsStrTruthy q = false) →
        searchHandler (some k) game q u = ⟨400, .err (.str "Missing game or q")⟩)
    ∧ (∀ (k : String) (sr i : Option String) (u : FetchOutcome),
        jsStrTruthy (some k) = true → jsStrTruthy i = false →
        priceHandler (some k) sr i u = ⟨400, .err (.str "Missing id")⟩)
    ∧ (∀ (key game q : Option String) (u : FetchOutcome),
        jsStrTruthy key = false →
        searchHandler key game q u
          = ⟨500, .err (.str "JustTCG API key not configured on server (JUSTTCG_API_KEY)")⟩)
    ∧ (∀ (key sr i : Option String) (u : FetchOutcome),
        jsStrTruthy key = false →
        priceHandler key sr i u
          = ⟨500, .err (.str "JustTCG API key not configured on server (JUSTTCG_API_KEY)")⟩) := by
  refine ⟨fun k game q u hk hgq => ?_, fun k sr i u hk hi => ?_,
    fun key game q u hk => ?_, fun key sr i u hk => ?_⟩
  · rcases hgq with hg | hq
    · simp [searchHandler, hk, hg]
    · simp [searchHandler, hk, hq]
  · simp [priceHandler, hk, hi]
  · simp [searchHandler, hk]
  · simp [priceHandler, hk]

/-- Witness for C8 at concrete requests: missing `q`, missing `id`, and a
missing credential. -/
theorem missing_params_and_key_witness :
    searchHandler (some "k") (some "pokemon") none (.throwErr "unused")
        = ⟨400, .err (.str "Missing game or q")⟩
    ∧ priceHandler (some "k") none none (.throwErr "unused")
        = ⟨400, .err (.str "Missing id")⟩
    ∧ searchHandler none (some "pokemon") (some "pikachu") (.throwErr "unused")
        = ⟨500, .err (.str "JustTCG API key not configured on server (JUSTTCG_API_KEY)")⟩ := by
  exact ⟨missing_params_and_key.1 "k" (some "pokemon") none _ rfl (Or.inr rfl),
    missing_params_and_key.2.1 "k" none none _ rfl rfl,
    missing_params_and_key.2.2.1 none (some "pokemon") (some "pikachu") _ rfl⟩

/-- C10: the `/api/cards/price` response carries the `raw` debug field
(the full upstream card and the chosen variant) exactly when the `SHOW_RAW`
environment variable is the string `true`; under any other configuration the
field is absent, and the remaining fields (status, price, currency, image,
variant identifier) do not depend on the flag at all. -/
theorem priceHandler_raw_debug_flag :
    (∀ (key sr i : Option String) (u : FetchOutcome), sr ≠ some "true" →
        rawOf (priceHandler key sr i u).body = none)
    ∧ (∀ (k i : String) (st : Nat) (card : JSVal),
        jsStrTruthy (some k) = true → jsStrTruthy (some i) = true →
        jsNullish card = false →
        rawOf (priceHandler (some k) (some "true") (some i)
            (.resp true st (.ok card))).body
          = some (card, firstVariant card))
    ∧ (∀ (key sr i : Option String) (u : FetchOutcome),
        (priceHandler key sr i u).status = (priceHandler key none i u).status
        ∧ eraseRaw (priceHandler key sr i u).body
            = eraseRaw (priceHandler key none i u).body) := by
  refine ⟨fun key sr i u h => ?_, fun k i st card hk hi hc => ?_,
    fun key sr i u => ?_⟩
  · unfold priceHandler
    split
    · rfl
    · split
      · rfl
      · cases u with
        | throwErr m => rfl
        | resp ok st body =>
            cases ok with
            | false =>
                simp only [Bool.not_false, if_true]
                split <;> rfl
            | true =>
                simp only [Bool.not_true, Bool.false_eq_true, if_false]
                cases body with
                | error m => rfl
                | ok card =>
                    by_cases hc : jsNullish card = true
                    · simp [hc, rawOf]
                    · simp [hc, rawOf, h]
  · simp [priceHandler, hk, hi, hc, rawOf]
  · unfold priceHandler
    split
    · exact ⟨rfl, rfl⟩
    · split
      · exact ⟨rfl, rfl⟩
      · cases u with
        | throwErr m => exact ⟨rfl, rfl⟩
        | resp ok st body =>
            cases ok with
            | false => exact ⟨rfl, rfl⟩
            | true =>
                cases body with
                | error m => exact ⟨rfl, rfl⟩
                | ok card =>
                    by_cases hc : jsNullish card = true
                    · simp [hc]
                    · simp [hc, eraseRaw]

/-- Witness for C10 at concrete configurations: flag off and flag on. -/
theorem priceHandler_raw_debug_flag_witness :
    rawOf (priceHandler (some "k") none (some "card-1")
        (.resp true 200 (.ok (.obj [])))).body = none
    ∧ rawOf (priceHandler (some "k") (some "true") (some "card-1")
        (.resp true 200 (.ok (.obj [])))).body
      = some (.obj [], firstVariant (.obj [])) := by
  exact ⟨priceHandler_raw_debug_flag.1 (some "k") none (some "card-1") _ (by simp),
    priceHandler_raw_debug_flag.2.1 "k" "card-1" 200 (.obj []) rfl rfl rfl⟩
